import Mathlib

/-!
Verification development for the ezIPSet library (src/ezipset/ezipset.py).

The library is a facade over the external `ipset` command-line tool.  The
shallow embedding below translates, function by function, the pure logic of
the Python source: string helpers mirror the Python string methods used by
the code, the subprocess and filesystem environment is passed in explicitly
(child-process behaviour, file existence, file contents, external set
state), and Python exceptions are modelled as explicit outcome constructors
(ezIPSetError, UnboundLocalError, ValueError).
-/

namespace EzIPSet

/-- Python whitespace characters as used by str.strip and shlex:
space, tab, newline, carriage return, vertical tab, form feed. -/
def pyIsSpaceChar (c : Char) : Bool :=
  c.toNat = 32 || c.toNat = 9 || c.toNat = 10 || c.toNat = 13 || c.toNat = 11 || c.toNat = 12

/-- Model of Python str.strip(): drop whitespace from both ends. -/
def pyStrip (s : String) : String :=
  String.mk (((s.data.dropWhile pyIsSpaceChar).reverse.dropWhile pyIsSpaceChar).reverse)

/-- Model of Python str.startswith: the pattern is a leading piece of the string. -/
def pyStartsWith (s pat : String) : Bool := pat.data.isPrefixOf s.data

/-- Model of Python str.endswith: the pattern is a trailing piece of the string. -/
def pyEndsWith (s pat : String) : Bool := pat.data.reverse.isPrefixOf s.data.reverse

/-- Model of Python newline.join over a list of lines. -/
def joinNL : List String → String
  | [] => ""
  | [x] => x
  | x :: rest => x ++ "\n" ++ joinNL rest

/-- Helper of pySplitNL carrying the current piece reversed. -/
def splitNLGo : List Char → List Char → List String
  | [], cur => [String.mk cur.reverse]
  | '\n' :: rest, cur => String.mk cur.reverse :: splitNLGo rest []
  | c :: rest, cur => splitNLGo rest (c :: cur)

/-- Model of Python str.split on a newline separator: the empty string
splits to one empty piece, as in Python. -/
def pySplitNL (s : String) : List String := splitNLGo s.data []

/-- Model of Python str.isdigit() for the ASCII-digit strings produced by ipset. -/
def pyIsDigit (s : String) : Bool :=
  !s.data.isEmpty && s.data.all Char.isDigit

/-- Decimal value of a list of ASCII digits. -/
def digitsToNat (ds : List Char) : Nat :=
  ds.foldl (fun n c => n * 10 + (c.toNat - 48)) 0

/-- Model of Python int(str): optional sign around a nonempty digit string
after stripping whitespace; none models the ValueError raised otherwise. -/
def pyInt (s : String) : Option Int :=
  match (pyStrip s).data with
  | '-' :: ds => if !ds.isEmpty && ds.all Char.isDigit then some (-(Int.ofNat (digitsToNat ds))) else none
  | '+' :: ds => if !ds.isEmpty && ds.all Char.isDigit then some (Int.ofNat (digitsToNat ds)) else none
  | ds => if !ds.isEmpty && ds.all Char.isDigit then some (Int.ofNat (digitsToNat ds)) else none

/-- Model of the replace used at ezipset.py line 486: each occurrence of a
backslash immediately followed by a double quote becomes backslash, space,
double quote (Python s.replace with those two literals). -/
def escBQ : List Char → List Char
  | [] => []
  | '\\' :: '"' :: rest => '\\' :: ' ' :: '"' :: escBQ rest
  | c :: rest => c :: escBQ rest

/-- Lexer state of the shlex model: outside quotes, in single quotes, in
double quotes, after a backslash outside quotes, after a backslash inside
double quotes, or inside a comment running to end of line. -/
inductive ShState
  | base
  | sq
  | dq
  | escB
  | escD
  | comm
deriving DecidableEq

/-- Model of CPython shlex.split in POSIX mode (as called by the source):
whitespace separates tokens; single and double quotes group; a backslash
outside quotes escapes the next character; inside double quotes a backslash
escapes only a double quote or a backslash and is otherwise kept; an
unquoted hash begins a comment when comments are enabled.  The current
token is carried reversed; none models the ValueError raised on an
unterminated quote or a trailing escape. -/
def shlexGo (comments : Bool) : List Char → ShState → Option (List Char) → List String → Option (List String)
  | [], .base, none, acc => some acc.reverse
  | [], .base, some cur, acc => some ((String.mk cur.reverse) :: acc).reverse
  | [], .comm, none, acc => some acc.reverse
  | [], .comm, some cur, acc => some ((String.mk cur.reverse) :: acc).reverse
  | [], _, _, _ => none
  | c :: rest, .base, cur, acc =>
    if pyIsSpaceChar c then
      match cur with
      | none => shlexGo comments rest .base none acc
      | some t => shlexGo comments rest .base none ((String.mk t.reverse) :: acc)
    else if c = '\'' then shlexGo comments rest .sq (some (cur.getD [])) acc
    else if c = '"' then shlexGo comments rest .dq (some (cur.getD [])) acc
    else if c = '\\' then shlexGo comments rest .escB (some (cur.getD [])) acc
    else if comments && c = '#' then
      match cur with
      | none => shlexGo comments rest .comm none acc
      | some t => shlexGo comments rest .comm none ((String.mk t.reverse) :: acc)
    else shlexGo comments rest .base (some (c :: cur.getD [])) acc
  | c :: rest, .sq, cur, acc =>
    if c = '\'' then shlexGo comments rest .base cur acc
    else shlexGo comments rest .sq (some (c :: cur.getD [])) acc
  | c :: rest, .dq, cur, acc =>
    if c = '"' then shlexGo comments rest .base cur acc
    else if c = '\\' then shlexGo comments rest .escD cur acc
    else shlexGo comments rest .dq (some (c :: cur.getD [])) acc
  | c :: rest, .escB, cur, acc => shlexGo comments rest .base (some (c :: cur.getD [])) acc
  | c :: rest, .escD, cur, acc =>
    if c = '"' || c = '\\' then shlexGo comments rest .dq (some (c :: cur.getD [])) acc
    else shlexGo comments rest .dq (some (c :: '\\' :: cur.getD [])) acc
  | c :: rest, .comm, cur, acc =>
    if c = '\n' then shlexGo comments rest .base cur acc
    else shlexGo comments rest .comm cur acc

/-- Model of shlex.split(s, comments) in POSIX mode. -/
def shlexSplit (comments : Bool) (s : String) : Option (List String) :=
  shlexGo comments s.data .base none []

/-- Splits a character list at the first occurrence of a nonempty anchor,
returning the part before the anchor and the part after it; none when the
anchor does not occur. -/
def takeUntilAnchor (anchor : List Char) : List Char → Option (List Char × List Char)
  | [] => if anchor.isEmpty then some ([], []) else none
  | c :: rest =>
    if anchor.isPrefixOf (c :: rest) then some ([], (c :: rest).drop anchor.length)
    else
      match takeUntilAnchor anchor rest with
      | none => none
      | some (pre, post) => some (c :: pre, post)

/-- Consumes exactly one whitespace character, as the regex token \s does. -/
def expectSpace : List Char → Option (List Char)
  | [] => none
  | c :: rest => if pyIsSpaceChar c then some rest else none

/-- Captures one lazy group per anchor: each step cuts the input at the
first occurrence of the anchor and then consumes the one whitespace
character required by the \s token following the label. -/
def terseChain : List (List Char) → List Char → Option (List (List Char) × List Char)
  | [], r => some ([], r)
  | a :: rest, r =>
    match takeUntilAnchor a r with
    | none => none
    | some (g, r1) =>
      match expectSpace r1 with
      | none => none
      | some r2 =>
        match terseChain rest r2 with
        | none => none
        | some (gs, rFinal) => some (g :: gs, rFinal)

/-- Model of the protocol-7 terse-listing regular expression of
ezipset.py line 88 searched over the command output plus a trailing
newline: the pattern is a sequence of literal labels, each followed by one
whitespace character and a lazy DOTALL capture group ending at the next
label.  The lazy leftmost match is computed by cutting at the first
occurrence of each successive label, which coincides with the regex
semantics on texts in which the labels occur in order, as in every
ipset terse listing. -/
def terseGroups (text : String) : Option (List String) :=
  match takeUntilAnchor "Name:".data text.data with
  | none => none
  | some (_, r0) =>
    match expectSpace r0 with
    | none => none
    | some r1 =>
      match terseChain ["\nType:".data, "\nRevision:".data, "\nHeader:".data,
          "\nSize in memory:".data, "\nReferences:".data, "\nNumber of entries:".data] r1 with
      | none => none
      | some (gs, r2) =>
        match takeUntilAnchor "\n".data r2 with
        | none => none
        | some (g7, _) => some ((gs ++ [g7]).map String.mk)

/-- Value attached to a header option or member attribute: a string, an
integer (digit-only values are coerced), or the boolean True given to the
flag options comment, counters and skbinfo. -/
inductive HVal
  | str (s : String)
  | int (n : Int)
  | flagTrue
deriving DecidableEq

/-- Top-level value of a set-descriptor field: a string, an integer, or the
nested header dictionary. -/
inductive TopVal
  | str (s : String)
  | int (n : Int)
  | dict (d : List (String × HVal))
deriving DecidableEq

/-- For each of the flag parameters comment, counters, skbinfo in order:
if present among the tokens, record it as True and remove its first
occurrence, as the pop loop of ezipset.py lines 443-447 does. -/
def popFlags : List String → List String → (List (String × HVal) × List String)
  | [], toks => ([], toks)
  | p :: ps, toks =>
    if toks.contains p then
      let (d, toks') := popFlags ps (toks.erase p)
      ((p, HVal.flagTrue) :: d, toks')
    else popFlags ps toks

/-- Pairs consecutive tokens into key and value, coercing digit-only values
to integers (ezipset.py lines 448-453 and 493-498); none models the
IndexError raised on an odd number of tokens. -/
def pairUp : List String → Option (List (String × HVal))
  | [] => some []
  | [_] => none
  | k :: v :: rest => do
    let d ← pairUp rest
    pure ((k, if pyIsDigit v then HVal.int (Int.ofNat (digitsToNat v.data)) else HVal.str v) :: d)

/-- Code-point comparison of character lists, matching Python string order. -/
def charListLtB : List Char → List Char → Bool
  | [], [] => false
  | [], _ :: _ => true
  | _ :: _, [] => false
  | a :: as, b :: bs =>
    if a.toNat < b.toNat then true
    else if b.toNat < a.toNat then false
    else charListLtB as bs

/-- Boolean string comparison by code points. -/
def strLtB (a b : String) : Bool := charListLtB a.data b.data

/-- Stable insertion into a key-sorted association list. -/
def insertSorted (x : String × HVal) : List (String × HVal) → List (String × HVal)
  | [] => [x]
  | y :: ys => if strLtB x.1 y.1 then x :: y :: ys else y :: insertSorted x ys

/-- Model of dict(sorted(header_dict.items(), key)) at ezipset.py line 454. -/
def sortByKey (l : List (String × HVal)) : List (String × HVal) :=
  l.foldl (fun acc x => insertSorted x acc) []

/-- Model of the header-line processing of get_set_header (ezipset.py lines
441-454): shlex-tokenize the captured header text, pop the flag options,
pair the remaining tokens with digit coercion, and sort by key. -/
def parseHeaderLine (header : String) : Option (List (String × HVal)) := do
  let toks ← shlexSplit false header
  let (flags, rest) := popFlags ["comment", "counters", "skbinfo"] toks
  let pairsD ← pairUp rest
  pure (sortByKey (flags ++ pairsD))

/-- Model of the parsing half of get_set_header (ezipset.py lines 439-463),
applied to the terse-listing text with the trailing newline the code
appends before searching.  The returned association list is the Python
dict in its insertion order: name, type, revision, header,
header_orig_line, size_in_memory, references, number_of_entries. -/
def get_set_header_parse (textPlusNL : String) : Option (List (String × TopVal)) := do
  let gs ← terseGroups textPlusNL
  match gs with
  | [name, ty, revision, header, size, refs, entries] => do
    let hd ← parseHeaderLine header
    let rev ← pyInt revision
    let sz ← pyInt size
    let rf ← pyInt refs
    let ne ← pyInt entries
    pure [("name", TopVal.str name), ("type", TopVal.str ty), ("revision", TopVal.int rev),
          ("header", TopVal.dict hd), ("header_orig_line", TopVal.str header),
          ("size_in_memory", TopVal.int sz), ("references", TopVal.int rf),
          ("number_of_entries", TopVal.int ne)]
  | _ => none

/-- Boolean equality of header values. -/
def hValEqB : HVal → HVal → Bool
  | .str a, .str b => a == b
  | .int a, .int b => a == b
  | .flagTrue, .flagTrue => true
  | _, _ => false

/-- Positional equality of header dictionaries (both sides are key-sorted,
so positional equality agrees with Python dict equality here). -/
def hDictEqB (a b : List (String × HVal)) : Bool :=
  a.length == b.length && (a.zip b).all (fun pq => pq.1.1 == pq.2.1 && hValEqB pq.1.2 pq.2.2)

/-- Boolean equality of top-level descriptor values. -/
def topValEqB : TopVal → TopVal → Bool
  | .str a, .str b => a == b
  | .int a, .int b => a == b
  | .dict a, .dict b => hDictEqB a b
  | _, _ => false

/-- Looks a key up in a descriptor association list. -/
def lookupTop (k : String) : List (String × TopVal) → Option TopVal
  | [] => none
  | p :: rest => if p.1 == k then some p.2 else lookupTop k rest

/-- Python dict equality for descriptors: order-insensitive, key for key. -/
def pyDictEqv (a b : List (String × TopVal)) : Bool :=
  (a.all fun p => match lookupTop p.1 b with | some v => topValEqB p.2 v | none => false) &&
  (b.all fun p => match lookupTop p.1 a with | some v => topValEqB p.2 v | none => false)

/-- Overwriting insertion into the members dictionary, matching Python dict
assignment members_dict[key] = param_dict. -/
def pyDictSet (d : List (String × List (String × HVal))) (k : String) (v : List (String × HVal)) :
    List (String × List (String × HVal)) :=
  if (d.map Prod.fst).contains k then d.map (fun p => if p.1 == k then (k, v) else p)
  else d ++ [(k, v)]

/-- Shlex-tokenizes each member line after the backslash-quote escape fix,
with comments enabled, as ezipset.py line 486 does. -/
def tokenizeMembers : List String → Option (List (List String))
  | [] => some []
  | item :: rest => do
    let toks ← shlexSplit true (String.mk (escBQ item.data))
    let others ← tokenizeMembers rest
    pure (toks :: others)

/-- Builds the members dictionary from the token lists: the first token is
the member key, the remaining tokens are paired into attributes with digit
coercion (ezipset.py lines 488-499); none models the IndexError on an
empty token list. -/
def buildMembers : List (List String) → List (String × List (String × HVal)) →
    Option (List (String × List (String × HVal)))
  | [], d => some d
  | toks :: rest, d =>
    match toks with
    | [] => none
    | key :: params => do
      let pd ← pairUp params
      buildMembers rest (pyDictSet d key pd)

/-- Model of the member-parsing half of get_set_members (ezipset.py lines
481-499), applied to the text of the Members section: strip it, split into
lines, drop empty lines, tokenize each line and build the dictionary. -/
def get_set_members_parse (membersText : String) :
    Option (List (String × List (String × HVal))) := do
  let items := (pySplitNL (pyStrip membersText)).filter (fun item => item != "")
  let toksList ← tokenizeMembers items
  buildMembers toksList []

/-- Behaviour of the child process spawned by __run_command: the executable
is missing, the command exceeds the timeout, or the child runs to
completion with an exit status and its two output streams. -/
inductive ProcBehavior
  | notFound
  | timesOut
  | completes (returncode : Int) (stdoutText : String) (stderrText : String)

/-- Observable outcome of one __run_command call: the documented list
return, a raised ezIPSetError, or a raised UnboundLocalError naming the
local variable whose unbound reference surfaced. -/
inductive RunOutcome
  | ret (success : Bool) (output : String)
  | ezError (msg : String)
  | unboundLocal (varName : String)

/-- Result of __run_command together with whether the child was killed. -/
structure RunResult where
  outcome : RunOutcome
  childKilled : Bool

/-- Model of ezIPSet.__run_command (ezipset.py lines 129-158).  On
FileNotFoundError or TimeoutExpired with raise_on_errors set, the except
clause raises the distinct ezIPSetError; the timeout clause kills the
child first.  With raise_on_errors unset (the default, used by every
facade method), control falls through to the second try block where
process, result and error may be unbound: the body raises
UnboundLocalError, and the finally clause del result, error then raises
UnboundLocalError for result, which is the exception that surfaces.  On
completion, result is replaced by error when the exit status is nonzero,
and the stripped text is returned with the success flag returncode == 0. -/
def run_command (cmdRepr : String) (b : ProcBehavior) (raise_on_errors : Bool) : RunResult :=
  match b with
  | .notFound =>
    if raise_on_errors then ⟨.ezError ("File not found (" ++ cmdRepr ++ ")"), false⟩
    else ⟨.unboundLocal "result", false⟩
  | .timesOut =>
    if raise_on_errors then ⟨.ezError ("Command timeout (" ++ cmdRepr ++ ")"), true⟩
    else ⟨.unboundLocal "result", true⟩
  | .completes rc outS errS =>
    ⟨.ret (rc == 0) (pyStrip (if rc == 0 then outS else errS)), false⟩

/-- Outcome of a save call: the dump text returned when no file was given,
a boolean, a raised ezIPSetError, or the implicit Python None return of
the branch where the save command fails and raise_on_errors is unset. -/
inductive SaveOutcome
  | retStr (s : String)
  | retBool (b : Bool)
  | ezError (msg : String)
  | retNone

/-- Result of save together with the files written (path and whether the
write was gzip-compressed) and whether the external save command ran. -/
structure SaveResult where
  outcome : SaveOutcome
  writes : List (String × Bool)
  ranSaveCmd : Bool

/-- Second half of save (ezipset.py lines 208-224), entered after the
existence check: runRes is the (success, stripped output) of the external
save command; on success with a target path the gzipped flag is forced on
for a path ending in .gz, and .gz is appended to the path when compression
is on and the path lacks the suffix; the write itself is recorded (the
write-failure except branch is an environment I/O error outside this
model). -/
def saveAfterCheck (to_file : Option String) (gzipped : Bool) (raise_on_errors : Bool)
    (runRes : Bool × String) : SaveResult :=
  if runRes.1 then
    match to_file with
    | some p =>
      let gz := if pyEndsWith p ".gz" then true else gzipped
      let p' := if gz && !(pyEndsWith p ".gz") then p ++ ".gz" else p
      ⟨.retBool true, [(p', gz)], true⟩
    | none => ⟨.retStr runRes.2, [], true⟩
  else
    if raise_on_errors then ⟨.ezError "Failed to save ipset rules", [], true⟩
    else ⟨.retNone, [], true⟩

/-- Model of ezIPSet.save (ezipset.py lines 188-224): target_exists is
os.path.isfile at the given path, consulted only when a path is given;
when the path exists and overwriting is not permitted the call fails
before the external command runs and before any write. -/
def save (to_file : Option String) (gzipped : Bool) (_compression_level : Int)
    (overwrite_if_exists : Bool) (target_exists : Bool) (raise_on_errors : Bool)
    (runRes : Bool × String) : SaveResult :=
  match to_file with
  | some p =>
    if !overwrite_if_exists && target_exists then
      if raise_on_errors then ⟨.ezError ("File already exists (" ++ p ++ ")"), [], false⟩
      else ⟨.retBool false, [], false⟩
    else saveAfterCheck (some p) gzipped raise_on_errors runRes
  | none => saveAfterCheck none gzipped raise_on_errors runRes

/-- Outcome of a restore call: a boolean, a raised ezIPSetError, or the
UnboundLocalError raised when new_file_to_restore is referenced without
having been assigned. -/
inductive RestoreOutcome
  | retBool (b : Bool)
  | ezError (msg : String)
  | unboundLocal (varName : String)

/-- Result of restore together with the temporary file written (path and
content), if any, and whether os.remove ran on it. -/
structure RestoreResult where
  outcome : RestoreOutcome
  tempWritten : Option (String × String)
  tempRemoved : Bool

/-- Model of ezIPSet.restore (ezipset.py lines 226-275).  file_exists is
os.path.isfile; fileLines are the stripped lines read from the file (the
gzip decode of a .gz file is abstracted into them); tempPath is the random
temporary path.  The local new_file_to_restore is assigned only inside the
branch where a skip flag is set or the name ends in .gz; the restore
command line then references it unconditionally, which raises
UnboundLocalError when it was never assigned.  When the command does run,
the finally clause removes the temporary file on both the success and the
failure path. -/
def restore (file_to_restore : String) (file_exists : Bool) (fileLines : List String)
    (skip_create_sets : Bool) (skip_add_entries : Bool) (_ignore_if_exists : Bool)
    (raise_on_errors : Bool) (tempPath : String) (runRes : Bool × String) : RestoreResult :=
  if !file_exists then
    if raise_on_errors then
      ⟨.ezError ("Cannot access/locate the specified file '" ++ file_to_restore ++ "'"), none, false⟩
    else ⟨.retBool false, none, false⟩
  else
    let t1 := if skip_create_sets then fileLines.filter (fun item => !(pyStartsWith item "create ")) else fileLines
    let t2 := if skip_add_entries then t1.filter (fun item => !(pyStartsWith item "add ")) else t1
    let new_file : Option (String × String) :=
      if (skip_add_entries || skip_create_sets) || pyEndsWith file_to_restore ".gz" then
        some (tempPath, joinNL t2)
      else none
    match new_file with
    | none => ⟨.unboundLocal "new_file_to_restore", none, false⟩
    | some tw =>
      if !runRes.1 then
        if raise_on_errors then
          ⟨.ezError ("Failed to restore file " ++ file_to_restore ++ " " ++ runRes.2), some tw, true⟩
        else ⟨.retBool false, some tw, true⟩
      else ⟨.retBool true, some tw, true⟩

/-- Stdout of the external command list -name for a given external set
state, after the strip applied by __run_command. -/
def list_name_output (ext : List String) : String :=
  pyStrip (joinNL ext)

/-- Model of ezIPSet.__update_set_names (ezipset.py lines 160-166): the
cached list becomes the list -name output split on newlines; on an empty
state the stripped output is the empty string, whose split is one empty
string, matching Python "".split. -/
def update_set_names (ext : List String) : List String :=
  pySplitNL (list_name_output ext)

/-- Outcome of destroy_set or destroy_all: a boolean, a raised
ezIPSetError, or the ValueError raised by list.index. -/
inductive DOutcome
  | retBool (b : Bool)
  | ezError (msg : String)
  | valueError

/-- Result of destroy_all together with the final external set state. -/
structure DestroyAllResult where
  outcome : DOutcome
  extFinal : List String

/-- Model of ezIPSet.destroy_set (ezipset.py lines 277-294) against an
external state: the destroy command succeeds exactly when the set exists,
removing it; the finally clause refreshes the cached name list from
list -name before the function returns.  Returns the new external state,
the refreshed cached list, and the outcome. -/
def destroy_set_step (ext : List String) (name : String) (raise_on_errors : Bool) :
    List String × List String × DOutcome :=
  let ok := ext.contains name
  let ext' := if ok then ext.erase name else ext
  let cached' := update_set_names ext'
  if ok then (ext', cached', .retBool true)
  else if raise_on_errors then
    (ext', cached', .ezError ("Failed to destroy ipset set (" ++ name ++ ") "))
  else (ext', cached', .retBool false)

/-- Loop body of destroy_all (ezipset.py lines 304-306): for each name of
the snapshot, on confirmed success the code pops
set_names.index(name) from the cached list — but destroy_set's finally
has already refreshed that list, so index raises ValueError when the name
is no longer present. -/
def destroy_all_go (raise_on_errors : Bool) : List String → List String → List String → DestroyAllResult
  | [], ext, _cached => ⟨.retBool true, ext⟩
  | n :: rest, ext, _cached =>
    match destroy_set_step ext n raise_on_errors with
    | (ext', cached', out) =>
      match out with
      | .ezError m => ⟨.ezError m, ext'⟩
      | .valueError => ⟨.valueError, ext'⟩
      | .retBool false => destroy_all_go raise_on_errors rest ext' cached'
      | .retBool true =>
        if cached'.contains n then destroy_all_go raise_on_errors rest ext' (cached'.erase n)
        else ⟨.valueError, ext'⟩

/-- Model of ezIPSet.destroy_all (ezipset.py lines 296-308): snapshot the
names via get_set_names, then destroy each and pop it from the cached list
on confirmed success. -/
def destroy_all (ext : List String) (raise_on_errors : Bool) : DestroyAllResult :=
  let names := update_set_names ext
  destroy_all_go raise_on_errors names ext names

/-- Outcome of test_entry or del_entry: a boolean or a raised error. -/
inductive CallOutcome
  | retBool (b : Bool)
  | ezError (msg : String)

/-- Model of ezIPSet.test_entry (ezipset.py lines 552-569): runRes is the
(success, stripped output) of the external test command; a negative result
raises only when both the instance-wide raise_on_errors and the per-call
raise_on_test_failed are set, and otherwise returns False. -/
def test_entry (runRes : Bool × String) (raise_on_errors : Bool) (raise_on_test_failed : Bool) :
    CallOutcome :=
  if !runRes.1 then
    if raise_on_errors && raise_on_test_failed then .ezError runRes.2
    else .retBool false
  else .retBool true

/-- Model of ezIPSet.del_entry (ezipset.py lines 571-589): a negative
result raises only when both the instance-wide raise_on_errors and the
per-call raise_if_not_exists are set, and otherwise returns False. -/
def del_entry (runRes : Bool × String) (set_name : String) (entry : String)
    (raise_on_errors : Bool) (raise_if_not_exists : Bool) : CallOutcome :=
  if !runRes.1 then
    if raise_on_errors && raise_if_not_exists then
      .ezError ("Failed to delete " ++ entry ++ " from set (" ++ set_name ++ ") " ++ runRes.2)
    else .retBool false
  else .retBool true

/-- The VALID_SET_TYPES table of ezipset.py lines 38-53: the fifteen
supported matching schemes (and list:set), each with the optional
attributes the table declares legal for it. -/
def VALID_SET_TYPES : List (String × List String) :=
  [("bitmap:ip", ["counters", "comment", "skbinfo"]),
   ("bitmap:ip,mac", ["counters", "comment", "skbinfo"]),
   ("bitmap:port", ["counters", "comment", "skbinfo"]),
   ("hash:ip", ["counters", "comment", "forceadd", "skbinfo", "bucketsize"]),
   ("hash:ip,mac", ["bucketsize"]),
   ("hash:ip,mark", ["forceadd", "skbinfo", "bucketsize"]),
   ("hash:ip,port", ["counters", "comment", "forceadd", "skbinfo", "bucketsize"]),
   ("hash:ip,port,ip", ["counters", "comment", "forceadd", "skbinfo", "bucketsize"]),
   ("hash:ip,port,net", ["nomatch", "counters", "comment", "forceadd", "skbinfo", "bucketsize"]),
   ("hash:mac", ["bucketsize"]),
   ("hash:net", ["nomatch", "counters", "comment", "forceadd", "skbinfo", "bucketsize"]),
   ("hash:net,iface", ["nomatch", "counters", "comment", "forceadd", "skbinfo", "bucketsize", "wildcard"]),
   ("hash:net,net", ["forceadd", "skbinfo", "bucketsize"]),
   ("hash:net,port", ["nomatch", "counters", "comment", "forceadd", "skbinfo", "bucketsize"]),
   ("hash:net,port,net", ["forceadd", "skbinfo", "bucketsize"]),
   ("list:set", ["counters", "comment", "skbinfo"])]

/-- Arguments of create_set, mirroring the Python signature. -/
structure CreateArgs where
  set_name : String
  set_type : String
  family : String
  timeout : Option Int
  with_comment : Bool
  with_counters : Bool
  with_skbinfo : Bool
  nomatch_flag : Bool
  forceadd : Bool
  wildcard : Bool
  hashsize : Option Int
  maxelem : Option Int
  bucketsize : Option Int
  ignore_if_exists : Bool

/-- Renders an optional integer clause of the create command line. -/
def intOptClause (label : String) (v : Option Int) : String :=
  match v with
  | some n => label ++ " " ++ toString n ++ " "
  | none => ""

/-- The create_command_line string assembled at ezipset.py lines 642-652,
in the fixed clause order of the source. -/
def create_command_line (a : CreateArgs) : String :=
  "family " ++ a.family ++ " " ++
  intOptClause "timeout" a.timeout ++
  intOptClause "hashsize" a.hashsize ++
  intOptClause "maxelem" a.maxelem ++
  intOptClause "bucketsize" a.bucketsize ++
  (if a.with_comment then "comment " else "") ++
  (if a.with_counters then "counters " else "") ++
  (if a.with_skbinfo then "skbinfo " else "") ++
  (if a.nomatch_flag then "nomatch " else "") ++
  (if a.forceadd then "forceadd " else "") ++
  (if a.wildcard then "wildcard " else "")

/-- Outcome of create_set up to the external invocation: rejected by local
validation (raising, or returning False when raise_on_errors is unset), or
the external create command invoked with the assembled command string. -/
inductive CreateOutcome
  | rejectedRaise (msg : String)
  | rejectedFalse
  | invoked (cmd : String)

/-- True exactly when the outcome reached the external invocation. -/
def CreateOutcome.isInvoked : CreateOutcome → Bool
  | .invoked _ => true
  | _ => false

/-- Model of ezIPSet.create_set up to the __run_command call (ezipset.py
lines 628-653): local validation checks the set type against the keys of
VALID_SET_TYPES and the family against inet and inet6, then assembles the
command line and invokes the external tool. -/
def create_set (a : CreateArgs) (raise_on_errors : Bool) : CreateOutcome :=
  if !(VALID_SET_TYPES.map Prod.fst).contains a.set_type then
    if raise_on_errors then .rejectedRaise ("Invalid set type (" ++ a.set_type ++ ").")
    else .rejectedFalse
  else if !(["inet", "inet6"].contains a.family) then
    if raise_on_errors then
      .rejectedRaise ("Invalid 'family' (" ++ a.family ++ "). Valid 'family' values are 'inet' or 'inet6'")
    else .rejectedFalse
  else
    .invoked ("create " ++ a.set_name ++ " " ++ a.set_type ++ " " ++ create_command_line a ++ " " ++
      (if a.ignore_if_exists then "-exist" else ""))

/-- The terse-listing text of the header-parser scenario, exactly as the
code sees it: the stripped command output plus the trailing newline
appended at ezipset.py line 439. -/
def sampleTerse : String :=
  "Name: test\nType: hash:ip\nRevision: 4\nHeader: family inet hashsize 1024 maxelem 65536\nSize in memory: 16728\nReferences: 0\nNumber of entries: 2\n"

/-- Descriptor the source actually builds for sampleTerse, with the
header_orig_line field of ezipset.py line 460 included. -/
def sampleHeaderDescriptor : List (String × TopVal) :=
  [("name", TopVal.str "test"), ("type", TopVal.str "hash:ip"), ("revision", TopVal.int 4),
   ("header", TopVal.dict [("family", HVal.str "inet"), ("hashsize", HVal.int 1024),
     ("maxelem", HVal.int 65536)]),
   ("header_orig_line", TopVal.str "family inet hashsize 1024 maxelem 65536"),
   ("size_in_memory", TopVal.int 16728), ("references", TopVal.int 0),
   ("number_of_entries", TopVal.int 2)]

/-- Descriptor stated by the specification scenario, written from the
spec's words for comparison with the descriptor the source builds: it has
the seven fields of the scenario and no header_orig_line field. -/
def claimedHeaderDescriptor : List (String × TopVal) :=
  [("name", TopVal.str "test"), ("type", TopVal.str "hash:ip"), ("revision", TopVal.int 4),
   ("header", TopVal.dict [("family", HVal.str "inet"), ("hashsize", HVal.int 1024),
     ("maxelem", HVal.int 65536)]),
   ("size_in_memory", TopVal.int 16728), ("references", TopVal.int 0),
   ("number_of_entries", TopVal.int 2)]

/-- Argument record of the create_set counterexample: the scheme hash:ip
with the nomatch attribute requested, every other option left at its
default. -/
def nomatchOnHashIp : CreateArgs :=
  { set_name := "x", set_type := "hash:ip", family := "inet", timeout := none,
    with_comment := false, with_counters := false, with_skbinfo := false,
    nomatch_flag := true, forceadd := false, wildcard := false,
    hashsize := none, maxelem := none, bucketsize := none, ignore_if_exists := false }

/-- C1 counterexample: nomatch is not among the attributes the
VALID_SET_TYPES table declares legal for hash:ip, yet create_set with
nomatch requested on hash:ip passes local validation and reaches the
external invocation, with nomatch in the command line — the requested
illegal attribute is not rejected before the external tool runs. -/
theorem create_set_illegal_attr_not_rejected :
    (((List.lookup "hash:ip" VALID_SET_TYPES).getD []).contains "nomatch") = false ∧
    create_set nomatchOnHashIp true =
      CreateOutcome.invoked "create x hash:ip family inet nomatch  " := ⟨rfl, rfl⟩

/-- C1 (amended): create_set's local validation rejects exactly the calls
whose set type is not a key of VALID_SET_TYPES or whose family is neither
inet nor inet6; with a valid type and family, validation passes and the
external tool is invoked regardless of which optional attributes are
requested. -/
theorem create_set_validation_amended (a : CreateArgs) (roe : Bool) :
    (create_set a roe).isInvoked =
      ((VALID_SET_TYPES.map Prod.fst).contains a.set_type &&
        (["inet", "inet6"].contains a.family)) := by
  unfold create_set
  cases h1 : (VALID_SET_TYPES.map Prod.fst).contains a.set_type <;>
    cases h2 : (["inet", "inet6"] : List String).contains a.family <;>
      cases roe <;> simp [h1, h2, CreateOutcome.isInvoked]

/-- C2: restoring an existing plain-text dump with both skip flags unset
never assigns new_file_to_restore, and the unconditional reference to it
in the restore command line raises UnboundLocalError: no temporary file
was created before use, no external restore command runs, and no removal
happens — contradicting the claim that every restore call references a
temporary file that was actually created. -/
theorem restore_unbound_temp_eval :
    restore "ipset_rules.txt" true ["create blacklist hash:ip", "add blacklist 10.0.0.1"]
        false false false true "ipset_restore_file-abcdef" (true, "") =
      ⟨RestoreOutcome.unboundLocal "new_file_to_restore", none, false⟩ := rfl

/-- C3: with raise_on_errors left at its default False — as every facade
method calls __run_command — both the timeout and the missing-executable
failure surface as the same UnboundLocalError for the local variable
result, an undistinguishable crash instead of the distinct errors the
claim requires (the child is killed in the timeout case). -/
theorem run_command_default_crash_eval :
    run_command "ipset save" ProcBehavior.timesOut false =
      ⟨RunOutcome.unboundLocal "result", true⟩ ∧
    run_command "ipset save" ProcBehavior.notFound false =
      ⟨RunOutcome.unboundLocal "result", false⟩ := ⟨rfl, rfl⟩

/-- C4 counterexample: for a child completing with exit status zero and
stdout ending in a newline, the returned output is the stripped text,
which differs from the child's stdout — the claim that output is the
child's stdout fails as stated. -/
theorem run_command_output_not_raw_stdout :
    run_command "ipset save" (ProcBehavior.completes 0 "out\n" "err") true =
      ⟨RunOutcome.ret true "out", false⟩ ∧ "out" ≠ "out\n" := ⟨rfl, by decide⟩

/-- C4 (amended): when the child runs to completion, success is true
exactly when the exit status is zero; the output is the child's stdout
stripped of leading and trailing whitespace when success holds, and the
stripped stderr otherwise. -/
theorem run_command_completed_amended (cmd : String) (rc : Int) (outS errS : String) (roe : Bool) :
    run_command cmd (ProcBehavior.completes rc outS errS) roe =
      ⟨RunOutcome.ret (decide (rc = 0)) (if rc = 0 then pyStrip outS else pyStrip errS), false⟩ := by
  by_cases h : rc = 0
  · subst h; simp [run_command]
  · simp [run_command, h]

/-- C5: a save call naming a target path that already exists, without the
overwrite permission, fails per policy — raising when raise_on_errors is
set and returning False otherwise — with no file written and without even
running the external save command, for every combination of the remaining
arguments. -/
theorem save_rejects_existing_target (p : String) (gz : Bool) (lvl : Int) (roe : Bool)
    (rr : Bool × String) :
    save (some p) gz lvl false true roe rr =
      ⟨if roe then SaveOutcome.ezError ("File already exists (" ++ p ++ ")")
        else SaveOutcome.retBool false, [], false⟩ := by
  cases roe <;> simp [save]

/-- C6: on an external state holding one set named a, destroying it
succeeds, and destroy_set's finally clause refreshes the cached name list
from list -name, which no longer holds the name; destroy_all then calls
set_names.index on the refreshed list and list.index raises ValueError —
the call crashes instead of completing with a boolean. -/
theorem destroy_all_index_crash_eval :
    destroy_set_step ["a"] "a" true = ([], [""], DOutcome.retBool true) ∧
    destroy_all ["a"] true = ⟨DOutcome.valueError, []⟩ := ⟨rfl, rfl⟩

/-- C7 counterexample: with the per-call flag set but the instance-wide
raise_on_errors unset, a negative test result and a negative delete result
are both returned as False, not raised — the claim that the per-call flag
alone makes a negative result raise fails as stated. -/
theorem test_del_flag_without_global_returns_false :
    test_entry (false, "x") false true = CallOutcome.retBool false ∧
    del_entry (false, "y") "s" "e" false true = CallOutcome.retBool false := ⟨rfl, rfl⟩

/-- C7 (amended): for test_entry and del_entry a negative result raises
exactly when both the instance-wide raise_on_errors and the per-call flag
are set, and is returned as the False sentinel otherwise; in particular
with the per-call flag unset a negative result is returned as False
regardless of the global setting, and a positive result returns True. -/
theorem test_del_raise_policy_amended (out sn e : String) (roe flag : Bool) :
    test_entry (false, out) roe flag =
      (if roe && flag then CallOutcome.ezError out else CallOutcome.retBool false) ∧
    test_entry (true, out) roe flag = CallOutcome.retBool true ∧
    del_entry (false, out) sn e roe flag =
      (if roe && flag then
        CallOutcome.ezError ("Failed to delete " ++ e ++ " from set (" ++ sn ++ ") " ++ out)
      else CallOutcome.retBool false) ∧
    del_entry (true, out) sn e roe flag = CallOutcome.retBool true := by
  cases roe <;> cases flag <;> simp [test_entry, del_entry]

/-- C8 counterexample: the header parser applied to the scenario text
produces the descriptor with the additional header_orig_line field, which
the claimed descriptor lacks, so the produced dictionary is not equal to
the claimed one — the parser does not produce exactly the claimed
descriptor. -/
theorem header_scenario_extra_field :
    get_set_header_parse sampleTerse = some sampleHeaderDescriptor ∧
    lookupTop "header_orig_line" claimedHeaderDescriptor = none ∧
    pyDictEqv sampleHeaderDescriptor claimedHeaderDescriptor = false := ⟨rfl, rfl, rfl⟩

/-- C8 (amended): the header parser applied to the scenario text produces
exactly the claimed descriptor extended with the header_orig_line field
holding the raw header line, the integer fields and digit-valued header
options all coerced to integers. -/
theorem header_scenario_amended :
    get_set_header_parse sampleTerse = some sampleHeaderDescriptor := rfl

/-- C9: the member parser applied to the scenario line produces exactly
the claimed record: the quote-aware first token is the member key, the
remaining tokens pair into comment and timeout attributes, and the
digit-only timeout value is coerced to an integer. -/
theorem member_scenario_parse :
    get_set_members_parse "192.168.1.1 comment \"office\" timeout 300" =
      some [("192.168.1.1", [("comment", HVal.str "office"), ("timeout", HVal.int 300)])] := rfl

/-- C10: for every save call that writes, if the target path ends in .gz
every write is gzip-compressed at that path regardless of the gzipped
flag; and if gzip is requested while the path does not end in .gz, every
write goes gzip-compressed to the path with .gz appended, which differs
from the path the caller named and the existence check examined. -/
theorem save_gz_path_logic (p : String) (gz : Bool) (lvl : Int) (ow te roe : Bool)
    (rr : Bool × String) :
    (pyEndsWith p ".gz" = true →
      ∀ w ∈ (save (some p) gz lvl ow te roe rr).writes, w = (p, true)) ∧
    (gz = true → pyEndsWith p ".gz" = false →
      ∀ w ∈ (save (some p) gz lvl ow te roe rr).writes,
        w = (p ++ ".gz", true) ∧ p ++ ".gz" ≠ p) := by
  have hne : p ++ ".gz" ≠ p := by
    intro he
    have hl := congrArg String.length he
    rw [String.length_append] at hl
    have h3 : (".gz" : String).length = 3 := rfl
    omega
  constructor
  · intro hgz w hw
    rcases rr with ⟨rs, ro⟩
    cases ow <;> cases te <;> cases roe <;> cases rs <;>
      simp [save, saveAfterCheck, hgz] at hw <;> simp [hw]
  · intro hg hn w hw
    subst hg
    rcases rr with ⟨rs, ro⟩
    cases ow <;> cases te <;> cases roe <;> cases rs <;>
      simp [save, saveAfterCheck, hn] at hw <;> simp [hw, hne]

/-- C10 witness: the theorem applied at the concrete paths rules.gz (with
compression off) and rules (with compression on), discharging each
hypothesis there. -/
theorem save_gz_path_logic_witness :
    (∀ w ∈ (save (some "rules.gz") false 9 true false true (true, "o")).writes,
      w = ("rules.gz", true)) ∧
    (∀ w ∈ (save (some "rules") true 9 true false true (true, "o")).writes,
      w = ("rules" ++ ".gz", true) ∧ "rules" ++ ".gz" ≠ "rules") :=
  ⟨(save_gz_path_logic "rules.gz" false 9 true false true (true, "o")).1 rfl,
   (save_gz_path_logic "rules" true 9 true false true (true, "o")).2 rfl rfl⟩

end EzIPSet
